import Mathlib

/-!
Verification development for the t800 combat-agent control core.

Shallow embedding of the Go sources:
  * `SafeHealth` and its operations — internal/anatomy (health tracker).
  * `BodyPart`, `Protection`, `TakeDamage` — internal/anatomy/robot.go.
  * Offense and defense strategy catalogs and their action functions —
    internal/offense, internal/defense.
  * `Processor` state with `ReportThreat`, `processThreats` and the
    threat-elimination step of `moveAndEngage` — internal/processor/processor.go.

Go `float64` values are modelled as rationals (`ℚ`); all clamping and
comparison logic in the source is exact arithmetic, so the embedding is
faithful on every input the theorems mention.  Go `int`/`int64` are `ℤ`.
Fallible calls return explicit result types; a Go nil-pointer dereference
(a panic) is modelled as a dedicated `nilPanic` result value.
-/

/-- Health tracker state, from `SafeHealth` in internal/anatomy.
The mutex is concurrency plumbing with no effect on the sequential
semantics and is not modelled. -/
structure SafeHealth where
  current : ℚ
  maximum : ℚ
  regenRate : ℚ
  lastUpdate : ℤ
deriving Repr, DecidableEq

/-- `NewSafeHealth` from internal/anatomy: full health, 10% regeneration
per second, no baseline timestamp yet. -/
def NewSafeHealth (maximum : ℚ) : SafeHealth :=
  { current := maximum, maximum := maximum, regenRate := 1/10, lastUpdate := 0 }

/-- `SafeHealth.Reduce` from internal/anatomy: non-positive amounts are a
no-op returning 0; otherwise the actual damage is `min amount current`
and current health is decremented, clamped at 0.  Returns
(actual damage, updated tracker). -/
def SafeHealth.Reduce (h : SafeHealth) (amount : ℚ) : ℚ × SafeHealth :=
  if amount ≤ 0 then (0, h)
  else
    let actualDamage := min amount h.current
    (actualDamage, { h with current := max 0 (h.current - actualDamage) })

/-- `SafeHealth.Heal` from internal/anatomy: non-positive amounts are a
no-op returning 0; otherwise the actual healing is
`min amount (maximum - current)` and current health is incremented,
clamped at `maximum`. -/
def SafeHealth.Heal (h : SafeHealth) (amount : ℚ) : ℚ × SafeHealth :=
  if amount ≤ 0 then (0, h)
  else
    let actualHealing := min amount (h.maximum - h.current)
    (actualHealing, { h with current := min h.maximum (h.current + actualHealing) })

/-- `SafeHealth.Update` from internal/anatomy: on the first call
(`lastUpdate == 0`) only the timestamp is recorded; otherwise the source
computes `deltaTime := float64(currentTime-h.lastUpdate) / 1000.0`
(the raw timestamp difference divided by 1000), is a no-op when
`deltaTime <= 0`, and otherwise heals by
`regenRate * deltaTime * maximum`, clamped at `maximum`, and advances the
timestamp. -/
def SafeHealth.Update (h : SafeHealth) (currentTime : ℤ) : SafeHealth :=
  if h.lastUpdate = 0 then { h with lastUpdate := currentTime }
  else
    let deltaTime : ℚ := ((currentTime - h.lastUpdate : ℤ) : ℚ) / 1000
    if deltaTime ≤ 0 then h
    else
      let regenAmount := h.regenRate * deltaTime * h.maximum
      { h with current := min h.maximum (h.current + regenAmount),
               lastUpdate := currentTime }

/-- `SafeHealth.IsCritical` from internal/anatomy: current below 20% of
maximum. -/
def SafeHealth.IsCritical (h : SafeHealth) : Bool :=
  h.current < h.maximum * (2/10)

/-- One call against a health tracker: `Reduce`, `Heal` or `Update`. -/
inductive HealthOp where
  | reduce (amount : ℚ)
  | heal (amount : ℚ)
  | update (currentTime : ℤ)
deriving Repr, DecidableEq

/-- State effect of one health-tracker call (return values dropped). -/
def SafeHealth.applyOp (h : SafeHealth) (op : HealthOp) : SafeHealth :=
  match op with
  | .reduce a => (h.Reduce a).2
  | .heal a => (h.Heal a).2
  | .update t => h.Update t

/-- State after a finite sequence of health-tracker calls. -/
def SafeHealth.applyOps (h : SafeHealth) (ops : List HealthOp) : SafeHealth :=
  ops.foldl SafeHealth.applyOp h

/-- Operation modes from internal/common. -/
inductive OperationMode where
  | normal
  | combat
  | emergency
  | maintenance
deriving Repr, DecidableEq

/-- 3D coordinates from internal/common. -/
structure Location where
  x : ℚ
  y : ℚ
  z : ℚ
deriving Repr, DecidableEq

/-- `Threat` from internal/common: identifier, category tag, location,
integer severity, timestamp, description and a health percentage. -/
structure Threat where
  id : String
  ttype : String
  location : Location
  severity : ℤ
  timestamp : ℤ
  description : String
  health : ℚ
deriving Repr, DecidableEq

/-- Part categories from internal/anatomy. -/
inductive PartType where
  | head
  | body
  | arm
  | leg
deriving Repr, DecidableEq

/-- Physical dimensions from internal/anatomy/dimensions.go. -/
structure Dimensions where
  width : ℚ
  height : ℚ
  depth : ℚ
  weight : ℚ
deriving Repr, DecidableEq

/-- `Protection` from internal/anatomy/robot.go. -/
structure Protection where
  armorRating : ℚ
  shieldStrength : ℚ
  damageThreshold : ℚ
  armorType : String
  isActive : Bool
deriving Repr, DecidableEq

/-- `BodyPart` from internal/anatomy/robot.go (the Go field `Type` is
named `ptype` here; `Type` is reserved in Lean). -/
structure BodyPart where
  ptype : PartType
  name : String
  dimensions : Dimensions
  protection : Protection
  health : SafeHealth
  isCritical : Bool
deriving Repr, DecidableEq

/-- `DefaultProtection` from internal/anatomy/robot.go. -/
def DefaultProtection (partType : PartType) : Protection :=
  match partType with
  | .head =>
      { armorRating := 95, shieldStrength := 90, damageThreshold := 50,
        armorType := "reinforced-titanium", isActive := true }
  | .body =>
      { armorRating := 90, shieldStrength := 85, damageThreshold := 75,
        armorType := "titanium", isActive := true }
  | _ =>
      { armorRating := 80, shieldStrength := 75, damageThreshold := 60,
        armorType := "standard-titanium", isActive := true }

/-- `NewBodyPart` from internal/anatomy/robot.go. -/
def NewBodyPart (partType : PartType) (name : String) (dims : Dimensions)
    (isCritical : Bool) : BodyPart :=
  { ptype := partType, name := name, dimensions := dims,
    health := NewSafeHealth 100, isCritical := isCritical,
    protection := DefaultProtection partType }

/-- `BodyPart.TakeDamage` from internal/anatomy/robot.go: when protection
is inactive the raw impact goes straight to `health.Reduce`; when active
the impact is first scaled by `(1 - armorRating/100) * (1 - shieldStrength/100)`. -/
def BodyPart.TakeDamage (bp : BodyPart) (impact : ℚ) : ℚ × BodyPart :=
  if bp.protection.isActive = false then
    let r := bp.health.Reduce impact
    (r.1, { bp with health := r.2 })
  else
    let armorReduction := 1 - bp.protection.armorRating / 100
    let shieldReduction := 1 - bp.protection.shieldStrength / 100
    let finalDamage := impact * armorReduction * shieldReduction
    let r := bp.health.Reduce finalDamage
    (r.1, { bp with health := r.2 })

/-- The damage amount `TakeDamage` routes to the health tracker, read
off the two branches of the source function. -/
def Protection.appliedDamage (prot : Protection) (impact : ℚ) : ℚ :=
  if prot.isActive then
    impact * (1 - prot.armorRating / 100) * (1 - prot.shieldStrength / 100)
  else impact

/-- Result of a defensive action function (internal/defense/actions.go):
`ok` carries the (possibly mutated) body part the Go code updated through
its pointer, `fail` is a returned error, and `nilPanic` marks a Go
nil-pointer dereference (runtime panic). -/
inductive DefResult where
  | ok (part : BodyPart)
  | fail (msg : String)
  | nilPanic
deriving Repr, DecidableEq

/-- True exactly when a defensive action returned without error. -/
def DefResult.isOk : DefResult → Bool
  | .ok _ => true
  | _ => false

/-- `ActivateEmergencyShields` from internal/defense/actions.go: only the
part is nil-checked (the threat parameter is unused); shield strength is
scaled by 1.5, clamped at 100. -/
def ActivateEmergencyShields (part : Option BodyPart) (_threat : Option Threat) : DefResult :=
  match part with
  | none => .fail "invalid body part"
  | some p =>
      .ok { p with protection :=
        { p.protection with shieldStrength := min 100 (p.protection.shieldStrength * (3/2)) } }

/-- `InitiateEvasiveManeuver` from internal/defense/actions.go: nil-checks
both parameters, otherwise a stub that mutates nothing. -/
def InitiateEvasiveManeuver (part : Option BodyPart) (threat : Option Threat) : DefResult :=
  match part with
  | none => .fail "invalid parameters"
  | some p =>
      match threat with
      | none => .fail "invalid parameters"
      | some _ => .ok p

/-- `ReinforceCriticalSystems` from internal/defense/actions.go: nil-checks
the part, requires the part's critical flag (not its category); armor
rating is scaled by 1.3, clamped at 100. -/
def ReinforceCriticalSystems (part : Option BodyPart) (_threat : Option Threat) : DefResult :=
  match part with
  | none => .fail "invalid body part"
  | some p =>
      if p.isCritical = false then .fail "part is not critical"
      else .ok { p with protection :=
        { p.protection with armorRating := min 100 (p.protection.armorRating * (13/10)) } }

/-- `DistributeShieldPower` from internal/defense/actions.go: nil-checks
only the part, then dereferences `threat.Severity` — a nil threat is a
runtime panic; shield strength is scaled by `severity/10`, clamped at
100. -/
def DistributeShieldPower (part : Option BodyPart) (threat : Option Threat) : DefResult :=
  match part with
  | none => .fail "invalid body part"
  | some p =>
      match threat with
      | none => .nilPanic
      | some t =>
          let threatMultiplier : ℚ := (t.severity : ℚ) / 10
          .ok { p with protection :=
            { p.protection with shieldStrength := min 100 (p.protection.shieldStrength * threatMultiplier) } }

/-- Names of the defensive action functions; `run` maps each name to the
function it denotes (the Go code stores the function pointers directly in
the strategy records). -/
inductive DefActionName where
  | activateEmergencyShields
  | initiateEvasiveManeuver
  | reinforceCriticalSystems
  | distributeShieldPower
deriving Repr, DecidableEq

/-- Interpretation of a defensive action name as its action function. -/
def DefActionName.run : DefActionName → Option BodyPart → Option Threat → DefResult
  | .activateEmergencyShields => ActivateEmergencyShields
  | .initiateEvasiveManeuver => InitiateEvasiveManeuver
  | .reinforceCriticalSystems => ReinforceCriticalSystems
  | .distributeShieldPower => DistributeShieldPower

/-- `Strategy` from internal/defense/strategy.go. -/
structure Strategy where
  priority : ℤ
  action : DefActionName
  description : String
deriving Repr, DecidableEq

/-- The defense `StrategyManager`'s category map after
`initializeStrategies` (internal/defense/strategy.go): only Head and Body
are registered; `none` models a key absent from the Go map. -/
def StrategyManager.strategies : PartType → Option (List Strategy)
  | .head => some
      [⟨1, .activateEmergencyShields, "Emergency shield activation for critical head protection"⟩,
       ⟨2, .initiateEvasiveManeuver, "Rapid evasive movement to protect head"⟩]
  | .body => some
      [⟨1, .reinforceCriticalSystems, "Reinforcing critical system protection"⟩,
       ⟨2, .distributeShieldPower, "Optimizing shield distribution"⟩]
  | _ => none

/-- `getDefaultStrategies` from internal/defense/actions.go. -/
def getDefaultStrategies : List Strategy :=
  [⟨1, .activateEmergencyShields, "Standard shield activation"⟩,
   ⟨2, .initiateEvasiveManeuver, "Basic evasive movement"⟩]

/-- `StrategyManager.GetDefensiveStrategies` from
internal/defense/strategy.go: the registered list for the part's
category, or `getDefaultStrategies` when the category is not in the map. -/
def GetDefensiveStrategies (part : BodyPart) : List Strategy :=
  match StrategyManager.strategies part.ptype with
  | some strategies => strategies
  | none => getDefaultStrategies

/-- Result of an offensive action function (internal/offense/actions.go):
these actions log but never mutate state, so `ok` carries nothing. -/
inductive OffResult where
  | ok
  | fail (msg : String)
deriving Repr, DecidableEq

/-- True exactly when an offensive action returned without error. -/
def OffResult.isOk : OffResult → Bool
  | .ok => true
  | _ => false

/-- `PlasmaCannonAttack` from internal/offense/actions.go: nil-checks both
parameters and requires an arm. -/
def PlasmaCannonAttack (part : Option BodyPart) (threat : Option Threat) : OffResult :=
  match part with
  | none => .fail "invalid parameters"
  | some p =>
      match threat with
      | none => .fail "invalid parameters"
      | some _ =>
          if p.ptype ≠ PartType.arm then .fail "plasma cannon can only be fired from arms"
          else .ok

/-- `MissileLaunch` from internal/offense/actions.go: nil-checks both
parameters and requires the body. -/
def MissileLaunch (part : Option BodyPart) (threat : Option Threat) : OffResult :=
  match part with
  | none => .fail "invalid parameters"
  | some p =>
      match threat with
      | none => .fail "invalid parameters"
      | some _ =>
          if p.ptype ≠ PartType.body then .fail "missiles can only be launched from body"
          else .ok

/-- `EMPPulse` from internal/offense/actions.go: nil-checks both
parameters and requires the body. -/
def EMPPulse (part : Option BodyPart) (threat : Option Threat) : OffResult :=
  match part with
  | none => .fail "invalid parameters"
  | some p =>
      match threat with
      | none => .fail "invalid parameters"
      | some _ =>
          if p.ptype ≠ PartType.body then .fail "EMP can only be generated from body"
          else .ok

/-- `LaserBeam` from internal/offense/actions.go: nil-checks both
parameters and requires the head. -/
def LaserBeam (part : Option BodyPart) (threat : Option Threat) : OffResult :=
  match part with
  | none => .fail "invalid parameters"
  | some p =>
      match threat with
      | none => .fail "invalid parameters"
      | some _ =>
          if p.ptype ≠ PartType.head then .fail "laser can only be fired from head"
          else .ok

/-- Names of the offensive action functions. -/
inductive OffActionName where
  | plasmaCannonAttack
  | missileLaunch
  | empPulse
  | laserBeam
deriving Repr, DecidableEq

/-- Interpretation of an offensive action name as its action function. -/
def OffActionName.run : OffActionName → Option BodyPart → Option Threat → OffResult
  | .plasmaCannonAttack => PlasmaCannonAttack
  | .missileLaunch => MissileLaunch
  | .empPulse => EMPPulse
  | .laserBeam => LaserBeam

/-- `AttackStrategy` from internal/offense/actions.go. -/
structure AttackStrategy where
  priority : ℤ
  action : OffActionName
  description : String
  powerUsage : ℚ
  attackRange : ℚ
  preemptive : Bool
deriving Repr, DecidableEq

/-- The `OffenseManager`'s category map after `initializeStrategies`
(internal/offense/actions.go): Arm, Body and Head are registered. -/
def OffenseManager.strategies : PartType → Option (List AttackStrategy)
  | .arm => some [⟨1, .plasmaCannonAttack, "Plasma cannon attack", 75, 50, true⟩]
  | .body => some
      [⟨2, .missileLaunch, "Guided missile launch", 90, 100, true⟩,
       ⟨3, .empPulse, "EMP pulse", 85, 30, true⟩]
  | .head => some [⟨4, .laserBeam, "Laser beam attack", 60, 40, true⟩]
  | .leg => none

/-- `OffenseManager.GetOffensiveStrategies` from
internal/offense/actions.go: the registered list for the part's category,
or nil (the empty list) when the category is not in the map. -/
def GetOffensiveStrategies (part : BodyPart) : List AttackStrategy :=
  match OffenseManager.strategies part.ptype with
  | some strategies => strategies
  | none => []

/-- `OffenseManager.GetPreemptiveStrategies` from
internal/offense/actions.go: the preemptive-flagged subset. -/
def GetPreemptiveStrategies (part : BodyPart) : List AttackStrategy :=
  (GetOffensiveStrategies part).filter (fun strategy => strategy.preemptive)

/-- `RobotAnatomy` from internal/anatomy/robot.go: one head, one body,
two arms, two legs.  The Go `Parts` name map always holds exactly these
six parts (the registry is created once and never resized), so it is
represented by the six fields themselves. -/
structure RobotAnatomy where
  head : BodyPart
  body : BodyPart
  armLeft : BodyPart
  armRight : BodyPart
  legLeft : BodyPart
  legRight : BodyPart
deriving Repr, DecidableEq

/-- `NewRobotAnatomy` from internal/anatomy/robot.go: standard T800
dimensions; head, body and legs are critical, arms are not. -/
def NewRobotAnatomy : RobotAnatomy :=
  { head := NewBodyPart .head "head" ⟨3/10, 2/5, 3/10, 15⟩ true,
    body := NewBodyPart .body "body" ⟨1/2, 4/5, 2/5, 45⟩ true,
    armLeft := NewBodyPart .arm "arm_left" ⟨1/5, 7/10, 1/5, 20⟩ false,
    armRight := NewBodyPart .arm "arm_right" ⟨1/5, 7/10, 1/5, 20⟩ false,
    legLeft := NewBodyPart .leg "leg_left" ⟨1/4, 9/10, 1/4, 25⟩ true,
    legRight := NewBodyPart .leg "leg_right" ⟨1/4, 9/10, 1/4, 25⟩ true }

/-- The defensive-strategy loop `ReportThreat` runs on one part: each
strategy in `GetDefensiveStrategies` is applied in order; a failing
action is logged and skipped, a successful one replaces the part (the Go
actions mutate it through the pointer).  The strategy list is read from
the part's category, which no defensive action changes. -/
def applyDefensiveStrategies (part : BodyPart) (threat : Threat) : BodyPart :=
  (GetDefensiveStrategies part).foldl
    (fun p strategy =>
      match strategy.action.run (some p) (some threat) with
      | .ok p' => p'
      | _ => p)
    part

/-- Effect on the anatomy of `ReportThreat`'s defensive pass: every part
returned by `GetCriticalParts` (those with the critical flag) receives
its defensive strategies.  Each action mutates only the part it is given,
so the Go map-iteration order does not affect the result. -/
def RobotAnatomy.applyDefenseToCritical (a : RobotAnatomy) (threat : Threat) : RobotAnatomy :=
  let app := fun (bp : BodyPart) =>
    if bp.isCritical then applyDefensiveStrategies bp threat else bp
  { head := app a.head, body := app a.body,
    armLeft := app a.armLeft, armRight := app a.armRight,
    legLeft := app a.legLeft, legRight := app a.legRight }

/-- Processor state from internal/processor/processor.go: the `status`
fields (`active`, `Mode`), the location, the active-threat reference and
the engagement distance.  The logger, contexts and tickers carry no
state the claims mention. -/
structure Processor where
  anatomy : RobotAnatomy
  active : Bool
  mode : OperationMode
  location : Location
  activeThreat : Option Threat
  engagementDistance : ℚ
deriving Repr, DecidableEq

/-- `NewProcessor` from internal/processor/processor.go (`Start` flips
`active` to true). -/
def NewProcessor : Processor :=
  { anatomy := NewRobotAnatomy,
    active := false,
    mode := .normal,
    location := ⟨0, 0, 0⟩,
    activeThreat := none,
    engagementDistance := 20 }

/-- `Processor.ReportThreat` from internal/processor/processor.go:
returns the `system is not active` error untouched-state pair when the
processor is not active; otherwise records the threat as active, enters
Combat mode, runs every defensive strategy on every critical part
(failures logged and skipped), then runs the offensive strategies for
the arms and the body — the offensive actions log but mutate nothing, so
their loop leaves the state unchanged. -/
def Processor.ReportThreat (p : Processor) (threat : Threat) : Option String × Processor :=
  if p.active = false then (some "system is not active", p)
  else
    (none,
     { p with activeThreat := some threat,
              mode := .combat,
              anatomy := p.anatomy.applyDefenseToCritical threat })

/-- Loop body of the highest-severity scan in `Processor.processThreats`:
the accumulator is (current best threat, its severity), seeded with
(nil, -1). -/
def scanStep (acc : Option Threat × ℤ) (threat : Threat) : Option Threat × ℤ :=
  if threat.severity > acc.2 then (some threat, threat.severity) else acc

/-- `Processor.processThreats` from internal/processor/processor.go: an
empty scan returns immediately; otherwise the highest-severity candidate
is found and it becomes the active threat (entering Combat mode) only
when no threat is active or its severity strictly exceeds the active
threat's. -/
def Processor.processThreats (p : Processor) (threats : List Threat) : Processor :=
  if threats = [] then p
  else
    match (threats.foldl scanStep (none, -1)).1 with
    | none => p
    | some highestThreat =>
        match p.activeThreat with
        | none =>
            { p with activeThreat := some highestThreat, mode := .combat }
        | some current =>
            if highestThreat.severity > current.severity then
              { p with activeThreat := some highestThreat, mode := .combat }
            else p

/-- Threat-elimination tail of `Processor.moveAndEngage`
(internal/processor/processor.go): `randDraw` is the value `rand.Float64()`
returned on this tick.  The movement and attack statements between the
nil guard and this check mutate only the processor's location and the
anatomy's protection values — never `activeThreat` or `status.Mode` — so
the active-threat/mode outcome of one engagement tick is exactly this
function's: the threat is cleared (and the mode reverts to Normal)
precisely when the draw falls below 0.1, with no reference to the
threat's health. -/
def Processor.engagementOutcome (p : Processor) (randDraw : ℚ) : Processor :=
  match p.activeThreat with
  | none => p
  | some _ =>
      if randDraw < 1/10 then
        { p with activeThreat := none, mode := .normal }
      else p

/-- The threat `main.go` reports in the demo scenario. -/
def sampleThreat : Threat :=
  { id := "THREAT-001", ttype := "hostile_robot", location := ⟨100, 100, 0⟩,
    severity := 8, timestamp := 0,
    description := "Hostile combat robot detected", health := 100 }

/-- A lower-severity scan candidate. -/
def weakThreat : Threat :=
  { sampleThreat with id := "THREAT-002", severity := 3 }

/-- The sample threat with its health driven to 0. -/
def zeroHealthThreat : Threat :=
  { sampleThreat with health := 0 }

/-- A started processor engaged with the sample threat. -/
def engagedProcessor : Processor :=
  { NewProcessor with active := true, mode := .combat,
                      activeThreat := some sampleThreat }

/-- A started processor engaged with the zero-health threat. -/
def engagedZeroHealth : Processor :=
  { engagedProcessor with activeThreat := some zeroHealthThreat }

/-- A standard arm part (non-critical, default arm protection 80/75). -/
def armPart : BodyPart :=
  NewBodyPart .arm "arm_left" ⟨1/5, 7/10, 1/5, 20⟩ false

/-- A standard leg part (critical, defense catalog has no leg entry). -/
def legPart : BodyPart :=
  NewBodyPart .leg "leg_left" ⟨1/4, 9/10, 1/4, 25⟩ true

/-- The arm part with its shield strength set to 50. -/
def halfShieldPart : BodyPart :=
  { armPart with protection := { armPart.protection with shieldStrength := 50 } }

/-- The sample threat with severity 5. -/
def severityFiveThreat : Threat :=
  { sampleThreat with severity := 5 }

/-- The mutated part carried by a successful defensive action. -/
def DefResult.okPart : DefResult → Option BodyPart
  | .ok p => some p
  | _ => none

/-- Validation contract the four offensive action functions share: nil
part or nil threat fails with the `invalid parameters` error, a category
mismatch fails, and a matching category with non-nil inputs succeeds. -/
def offValidates (f : Option BodyPart → Option Threat → OffResult)
    (required : PartType) : Prop :=
  (∀ t, f none t = OffResult.fail "invalid parameters") ∧
  (∀ p, f (some p) none = OffResult.fail "invalid parameters") ∧
  (∀ p t, p.ptype ≠ required → (f (some p) (some t)).isOk = false) ∧
  (∀ p t, p.ptype = required → f (some p) (some t) = OffResult.ok)

theorem applyOp_preserves (h : SafeHealth) (op : HealthOp)
    (h0 : 0 ≤ h.current) (h1 : h.current ≤ h.maximum) (h2 : 0 ≤ h.regenRate) :
    (0 ≤ (h.applyOp op).current ∧ (h.applyOp op).current ≤ (h.applyOp op).maximum) ∧
    ((h.applyOp op).maximum = h.maximum ∧ (h.applyOp op).regenRate = h.regenRate) := by
  have hM : 0 ≤ h.maximum := le_trans h0 h1
  cases op with
  | reduce a =>
      simp only [SafeHealth.applyOp, SafeHealth.Reduce]
      split_ifs with ha
      · exact ⟨⟨h0, h1⟩, rfl, rfl⟩
      · push_neg at ha
        have hmin : 0 ≤ min a h.current := le_min (le_of_lt ha) h0
        refine ⟨⟨le_max_left 0 _, ?_⟩, rfl, rfl⟩
        exact max_le hM (by linarith)
  | heal a =>
      simp only [SafeHealth.applyOp, SafeHealth.Heal]
      split_ifs with ha
      · exact ⟨⟨h0, h1⟩, rfl, rfl⟩
      · push_neg at ha
        have hmin : 0 ≤ min a (h.maximum - h.current) :=
          le_min (le_of_lt ha) (by linarith)
        refine ⟨⟨le_min hM (by linarith), min_le_left _ _⟩, rfl, rfl⟩
  | update t =>
      simp only [SafeHealth.applyOp, SafeHealth.Update]
      split_ifs with hfirst hdelta
      · exact ⟨⟨h0, h1⟩, rfl, rfl⟩
      · exact ⟨⟨h0, h1⟩, rfl, rfl⟩
      · push_neg at hdelta
        have hreg : 0 ≤ h.regenRate * (((t - h.lastUpdate : ℤ) : ℚ) / 1000) * h.maximum :=
          mul_nonneg (mul_nonneg h2 (le_of_lt hdelta)) hM
        refine ⟨⟨le_min hM (by linarith), min_le_left _ _⟩, rfl, rfl⟩

/-- C1: for every health tracker starting with `0 ≤ current ≤ maximum`
(and the tracker invariant `0 ≤ regenRate`, which `NewSafeHealth` and
`SetRegenRate` guarantee), after any finite sequence of `Reduce`, `Heal`
and `Update` calls — with arbitrary, possibly negative, amounts and
timestamps — the invariant `0 ≤ current ≤ maximum` still holds: health
never goes negative and never exceeds the maximum. -/
theorem health_invariant_sequences (h : SafeHealth) (ops : List HealthOp)
    (h0 : 0 ≤ h.current) (h1 : h.current ≤ h.maximum) (h2 : 0 ≤ h.regenRate) :
    0 ≤ (h.applyOps ops).current ∧ (h.applyOps ops).current ≤ (h.applyOps ops).maximum := by
  induction ops generalizing h with
  | nil => exact ⟨h0, h1⟩
  | cons op rest ih =>
      have step := applyOp_preserves h op h0 h1 h2
      have hrec := ih (h.applyOp op) step.1.1 step.1.2 (step.2.2 ▸ h2)
      simpa [SafeHealth.applyOps, List.foldl_cons] using hrec

/-- C1 witness: the invariant theorem applied to a fresh tracker of
maximum 100 and a concrete mixed call sequence. -/
theorem health_invariant_sequences_witness :
    0 ≤ ((NewSafeHealth 100).applyOps
          [HealthOp.reduce 30, HealthOp.update 5, HealthOp.heal 250,
           HealthOp.reduce (-7), HealthOp.update 3]).current ∧
    ((NewSafeHealth 100).applyOps
          [HealthOp.reduce 30, HealthOp.update 5, HealthOp.heal 250,
           HealthOp.reduce (-7), HealthOp.update 3]).current ≤
      ((NewSafeHealth 100).applyOps
          [HealthOp.reduce 30, HealthOp.update 5, HealthOp.heal 250,
           HealthOp.reduce (-7), HealthOp.update 3]).maximum :=
  health_invariant_sequences (NewSafeHealth 100) _
    (by norm_num [NewSafeHealth]) (by norm_num [NewSafeHealth]) (by norm_num [NewSafeHealth])

/-- C2: the health loop (`monitorHealth`) passes Unix-second timestamps,
but `SafeHealth.Update` divides the raw timestamp difference by 1000
(it expects milliseconds), so one elapsed second heals
`regenRate * (1/1000) * maximum`, not `regenRate * 1 * maximum` as the
claim (and the source's own `10% regeneration per second` comment) state:
from current 0, maximum 100, regenRate 1/10, lastUpdate 1000, updating at
time 1001 yields current 1/100 instead of 10. -/
theorem update_units_mismatch :
    (({ current := 0, maximum := 100, regenRate := 1/10, lastUpdate := 1000 : SafeHealth }).Update
        1001).current = 1/100 ∧
    (({ current := 0, maximum := 100, regenRate := 1/10, lastUpdate := 1000 : SafeHealth }).Update
        1001).lastUpdate = 1001 ∧
    ((1 : ℚ)/100 ≠ min 100 (0 + (1/10) * 1 * 100)) := by
  refine ⟨?_, ?_, ?_⟩ <;> norm_num [SafeHealth.Update, min_def]

/-- C7: `TakeDamage` routes exactly
`impact * (1 - armorRating/100) * (1 - shieldStrength/100)` to the health
tracker when protection is active and the raw impact when inactive, and
for non-negative raw damage with armor/shield ratings in `[0, 100]` the
applied damage is monotonically non-increasing in the armor rating and in
the shield strength. -/
theorem takeDamage_protection_formula :
    (∀ (bp : BodyPart) (impact : ℚ),
       bp.TakeDamage impact
         = ((bp.health.Reduce (bp.protection.appliedDamage impact)).1,
            { bp with health := (bp.health.Reduce (bp.protection.appliedDamage impact)).2 })) ∧
    (∀ (prot : Protection) (impact : ℚ), prot.isActive = false →
       prot.appliedDamage impact = impact) ∧
    (∀ (prot : Protection) (impact : ℚ), prot.isActive = true →
       prot.appliedDamage impact
         = impact * (1 - prot.armorRating / 100) * (1 - prot.shieldStrength / 100)) ∧
    (∀ (impact ar ar' ss dt : ℚ) (str : String), 0 ≤ impact → 0 ≤ ss → ss ≤ 100 → ar ≤ ar' →
       Protection.appliedDamage ⟨ar', ss, dt, str, true⟩ impact
         ≤ Protection.appliedDamage ⟨ar, ss, dt, str, true⟩ impact) ∧
    (∀ (impact ar ss ss' dt : ℚ) (str : String), 0 ≤ impact → 0 ≤ ar → ar ≤ 100 → ss ≤ ss' →
       Protection.appliedDamage ⟨ar, ss', dt, str, true⟩ impact
         ≤ Protection.appliedDamage ⟨ar, ss, dt, str, true⟩ impact) := by
  refine ⟨?_, ?_, ?_, ?_, ?_⟩
  · intro bp impact
    by_cases hA : bp.protection.isActive
    · simp [BodyPart.TakeDamage, Protection.appliedDamage, hA]
    · simp [BodyPart.TakeDamage, Protection.appliedDamage, hA]
  · intro prot impact hA
    simp [Protection.appliedDamage, hA]
  · intro prot impact hA
    simp [Protection.appliedDamage, hA]
  · intro impact ar ar' ss dt str h0 h1 h2 h3
    simp only [Protection.appliedDamage]; norm_num
    have hs : 0 ≤ 1 - ss / 100 := by linarith
    have hfac : 0 ≤ impact * (1 - ss / 100) := mul_nonneg h0 hs
    nlinarith [mul_le_mul_of_nonneg_left (show 1 - ar' / 100 ≤ 1 - ar / 100 by linarith) hfac]
  · intro impact ar ss ss' dt str h0 h1 h2 h3
    simp only [Protection.appliedDamage]; norm_num
    have ha : 0 ≤ 1 - ar / 100 := by linarith
    have hfac : 0 ≤ impact * (1 - ar / 100) := mul_nonneg h0 ha
    nlinarith [mul_le_mul_of_nonneg_left (show 1 - ss' / 100 ≤ 1 - ss / 100 by linarith) hfac]

/-- C7 witness: the formula at an inactive protection record and both
monotonicity parts at concrete armor/shield values. -/
theorem takeDamage_protection_formula_witness :
    Protection.appliedDamage ⟨95, 90, 50, "x", false⟩ 7 = 7 ∧
    Protection.appliedDamage ⟨60, 50, 0, "x", true⟩ 10
      ≤ Protection.appliedDamage ⟨30, 50, 0, "x", true⟩ 10 ∧
    Protection.appliedDamage ⟨30, 80, 0, "x", true⟩ 10
      ≤ Protection.appliedDamage ⟨30, 50, 0, "x", true⟩ 10 := by
  refine ⟨takeDamage_protection_formula.2.1 _ 7 rfl, ?_, ?_⟩
  · exact takeDamage_protection_formula.2.2.2.1 10 30 60 50 0 "x"
      (by norm_num) (by norm_num) (by norm_num) (by norm_num)
  · exact takeDamage_protection_formula.2.2.2.2 10 30 50 80 0 "x"
      (by norm_num) (by norm_num) (by norm_num) (by norm_num)

/-- C3: the engagement step clears the active threat on a 10% random draw
(`rand.Float64() < 0.1`), not when the threat's health reaches 0: with the
active threat's health already 0 and a draw of 1/2 the threat stays active
in Combat mode, while with full health 100 and a draw of 0 the threat is
cleared — elimination is independent of health, contradicting the claimed
health-based rule. -/
theorem engagement_elimination_is_random :
    (engagedZeroHealth.engagementOutcome (1/2)).activeThreat = some zeroHealthThreat ∧
    (engagedZeroHealth.engagementOutcome (1/2)).mode = OperationMode.combat ∧
    (engagedProcessor.engagementOutcome 0).activeThreat = none ∧
    (engagedProcessor.engagementOutcome 0).mode = OperationMode.normal := by
  refine ⟨?_, ?_, ?_, ?_⟩ <;>
    norm_num [Processor.engagementOutcome, engagedZeroHealth, engagedProcessor]

/-- C4 counterexample: a processor engaged with the sample threat, handed
an empty scan result, keeps its active threat and stays in Combat mode —
the claim says the mode reverts to Normal and the threat is cleared. -/
theorem empty_scan_keeps_threat :
    (engagedProcessor.processThreats []).activeThreat = some sampleThreat ∧
    (engagedProcessor.processThreats []).mode = OperationMode.combat := by
  constructor <;> rfl

/-- C4 (amended): `processThreats` returns immediately on an empty scan
result — the state, in particular the mode and the active-threat
reference, is unchanged; an active threat is never cleared by the scan
path. -/
theorem processThreats_empty_noop (p : Processor) : p.processThreats [] = p := by
  simp [Processor.processThreats]

theorem scanStep_foldl_mem (ts : List Threat) (acc : Option Threat × ℤ) (u : Threat)
    (h : (ts.foldl scanStep acc).1 = some u) : u ∈ ts ∨ acc.1 = some u := by
  induction ts generalizing acc with
  | nil => exact Or.inr h
  | cons t rest ih =>
      rcases ih (scanStep acc t) (by simpa using h) with hmem | hacc
      · exact Or.inl (List.mem_cons_of_mem _ hmem)
      · unfold scanStep at hacc
        by_cases hc : t.severity > acc.2
        · rw [if_pos hc] at hacc
          obtain rfl : t = u := by simpa using hacc
          exact Or.inl (List.mem_cons_self _ _)
        · rw [if_neg hc] at hacc
          exact Or.inr hacc

/-- C5 counterexample: with the severity-8 sample threat active, a
non-empty scan result holding only the severity-3 candidate leaves the
active threat unchanged — the claim says any approved candidate replaces
the in-flight engagement regardless of severity. -/
theorem low_severity_candidate_ignored :
    (engagedProcessor.processThreats [weakThreat]).activeThreat = some sampleThreat ∧
    some sampleThreat ≠ some weakThreat := by
  constructor
  · rfl
  · simp [sampleThreat, weakThreat]

/-- C5 (amended): `processThreats` selects the highest-severity candidate
and replaces the active threat only when no threat is active or the
candidate's severity strictly exceeds the active threat's (no oracle is
consulted); candidates whose severities are all ≤ the active threat's
leave the state unchanged. -/
theorem no_lower_severity_preemption (p : Processor) (t : Threat) (ts : List Threat)
    (hActive : p.activeThreat = some t)
    (hSev : ∀ u ∈ ts, u.severity ≤ t.severity) :
    p.processThreats ts = p := by
  unfold Processor.processThreats
  split_ifs with hEmpty
  · rfl
  · cases hScan : (ts.foldl scanStep (none, -1)).1 with
    | none => rfl
    | some u =>
        have humem : u ∈ ts := by
          rcases scanStep_foldl_mem ts (none, -1) u hScan with hm | hm
          · exact hm
          · exact Option.noConfusion hm
        have hle : ¬ (u.severity > t.severity) := not_lt.mpr (hSev u humem)
        simp [hActive, hle]

/-- C5 witness: the no-preemption theorem at the engaged processor and
the severity-3 candidate list. -/
theorem no_lower_severity_preemption_witness :
    engagedProcessor.processThreats [weakThreat] = engagedProcessor :=
  no_lower_severity_preemption engagedProcessor sampleThreat [weakThreat] rfl
    (by intro u hu; simp at hu; subst hu; decide)

/-- C6: `ReportThreat` on a processor that is not active returns the
`system is not active` error before touching any state: the anatomy, the
mode and the active-threat reference are all unchanged. -/
theorem reportThreat_inactive_no_mutation (p : Processor) (threat : Threat)
    (h : p.active = false) :
    p.ReportThreat threat = (some "system is not active", p) := by
  simp [Processor.ReportThreat, h]

/-- C6 witness: the theorem at a freshly created (never started)
processor and the sample threat. -/
theorem reportThreat_inactive_no_mutation_witness :
    NewProcessor.ReportThreat sampleThreat = (some "system is not active", NewProcessor) :=
  reportThreat_inactive_no_mutation NewProcessor sampleThreat rfl

/-- C8 counterexample: `ActivateEmergencyShields` called with a valid part
and a nil threat succeeds (the claim demands an InvalidOperation
failure), and `DistributeShieldPower` called with a valid part and a nil
threat dereferences the nil threat — a runtime panic, not an error
return. -/
theorem defense_nil_threat_counterexample :
    (ActivateEmergencyShields (some armPart) none).isOk = true ∧
    DistributeShieldPower (some armPart) none = DefResult.nilPanic := by
  constructor <;> rfl

/-- C8 (amended): the four offensive actions validate nil part, nil
threat and the part's category, failing with an error otherwise and
succeeding on matching non-nil inputs; the defensive actions validate
only a nil part (`InitiateEvasiveManeuver` also a nil threat, and
`ReinforceCriticalSystems` additionally requires the critical flag) and
never check the part's category; `ActivateEmergencyShields` succeeds even
on a nil threat, and `DistributeShieldPower` panics on a nil threat. -/
theorem action_validation_amended :
    offValidates PlasmaCannonAttack PartType.arm ∧
    offValidates MissileLaunch PartType.body ∧
    offValidates EMPPulse PartType.body ∧
    offValidates LaserBeam PartType.head ∧
    (∀ t, ActivateEmergencyShields none t = DefResult.fail "invalid body part") ∧
    (∀ p t, (ActivateEmergencyShields (some p) t).isOk = true) ∧
    (∀ t, InitiateEvasiveManeuver none t = DefResult.fail "invalid parameters") ∧
    (∀ p, InitiateEvasiveManeuver (some p) none = DefResult.fail "invalid parameters") ∧
    (∀ p t, InitiateEvasiveManeuver (some p) (some t) = DefResult.ok p) ∧
    (∀ t, ReinforceCriticalSystems none t = DefResult.fail "invalid body part") ∧
    (∀ p t, p.isCritical = false →
       ReinforceCriticalSystems (some p) t = DefResult.fail "part is not critical") ∧
    (∀ p t, p.isCritical = true → (ReinforceCriticalSystems (some p) t).isOk = true) ∧
    (∀ t, DistributeShieldPower none t = DefResult.fail "invalid body part") ∧
    (∀ p, DistributeShieldPower (some p) none = DefResult.nilPanic) ∧
    (∀ p t, (DistributeShieldPower (some p) (some t)).isOk = true) := by
  refine ⟨?_, ?_, ?_, ?_, fun t => rfl, fun p t => rfl, fun t => rfl, fun p => rfl,
    fun p t => rfl, fun t => rfl, ?_, ?_, fun t => rfl, fun p => rfl, fun p t => rfl⟩
  · refine ⟨fun t => rfl, fun p => rfl, ?_, ?_⟩
    · intro p t h
      simp [PlasmaCannonAttack, OffResult.isOk, h]
    · intro p t h
      simp [PlasmaCannonAttack, h]
  · refine ⟨fun t => rfl, fun p => rfl, ?_, ?_⟩
    · intro p t h
      simp [MissileLaunch, OffResult.isOk, h]
    · intro p t h
      simp [MissileLaunch, h]
  · refine ⟨fun t => rfl, fun p => rfl, ?_, ?_⟩
    · intro p t h
      simp [EMPPulse, OffResult.isOk, h]
    · intro p t h
      simp [EMPPulse, h]
  · refine ⟨fun t => rfl, fun p => rfl, ?_, ?_⟩
    · intro p t h
      simp [LaserBeam, OffResult.isOk, h]
    · intro p t h
      simp [LaserBeam, h]
  · intro p t h
    simp [ReinforceCriticalSystems, h]
  · intro p t h
    simp [ReinforceCriticalSystems, DefResult.isOk, h]

/-- C8 witness: the amended theorem at the arm part — the arm weapon
succeeds on it, the head weapon rejects it, and the critical-only
defensive action rejects the non-critical arm. -/
theorem action_validation_amended_witness :
    PlasmaCannonAttack (some armPart) (some sampleThreat) = OffResult.ok ∧
    (LaserBeam (some armPart) (some sampleThreat)).isOk = false ∧
    ReinforceCriticalSystems (some armPart) (some sampleThreat)
      = DefResult.fail "part is not critical" := by
  obtain ⟨hplasma, _, _, hlaser, _, _, _, _, _, _, hreinforce, _⟩ := action_validation_amended
  exact ⟨hplasma.2.2.2 armPart sampleThreat rfl,
    hlaser.2.2.1 armPart sampleThreat (by decide),
    hreinforce armPart (some sampleThreat) rfl⟩

/-- C9 counterexample: the defense catalog has no entry for the leg
category, yet `GetDefensiveStrategies` on a leg part returns the
(non-empty) default strategy list instead of the empty result the claim
demands. -/
theorem defense_lookup_default_counterexample :
    GetDefensiveStrategies legPart = getDefaultStrategies ∧ getDefaultStrategies ≠ [] := by
  constructor
  · rfl
  · simp [getDefaultStrategies]

/-- C9 (amended): both lookups return the catalog's registered list for
the part's category; for an unregistered category `GetOffensiveStrategies`
returns the empty result but `GetDefensiveStrategies` falls back to
`getDefaultStrategies`. -/
theorem strategy_lookup_amended (part : BodyPart) :
    (∀ l, OffenseManager.strategies part.ptype = some l → GetOffensiveStrategies part = l) ∧
    (OffenseManager.strategies part.ptype = none → GetOffensiveStrategies part = []) ∧
    (∀ l, StrategyManager.strategies part.ptype = some l → GetDefensiveStrategies part = l) ∧
    (StrategyManager.strategies part.ptype = none →
       GetDefensiveStrategies part = getDefaultStrategies) := by
  refine ⟨?_, ?_, ?_, ?_⟩
  · intro l h
    simp [GetOffensiveStrategies, h]
  · intro h
    simp [GetOffensiveStrategies, h]
  · intro l h
    simp [GetDefensiveStrategies, h]
  · intro h
    simp [GetDefensiveStrategies, h]

/-- C9 witness: the amended theorem at a leg part, whose category is
registered in neither catalog. -/
theorem strategy_lookup_amended_witness :
    GetOffensiveStrategies legPart = [] ∧
    GetDefensiveStrategies legPart = getDefaultStrategies :=
  ⟨(strategy_lookup_amended legPart).2.1 rfl,
   (strategy_lookup_amended legPart).2.2.2 rfl⟩

/-- C10 counterexample: `DistributeShieldPower` on a part with shield
strength 50 and a severity-5 threat succeeds and sets the shield strength
to 25 — strictly below its previous value, where the claim says a
successful defensive action never decreases shield strength. -/
theorem shield_decrease_counterexample :
    (DistributeShieldPower (some halfShieldPart) (some severityFiveThreat)).isOk = true ∧
    ((DistributeShieldPower (some halfShieldPart) (some severityFiveThreat)).okPart.map
        (fun p => p.protection.shieldStrength)) = some 25 ∧
    (25 : ℚ) < 50 := by
  refine ⟨rfl, ?_, by norm_num⟩
  norm_num [DistributeShieldPower, DefResult.okPart, halfShieldPart, armPart,
    severityFiveThreat, sampleThreat, NewBodyPart, DefaultProtection, min_def]

/-- C10 (amended): every successful defensive shield mutation is clamped
at the ceiling 100; `ActivateEmergencyShields` never decreases shield
strength (for a starting value in `[0, 100]`), `ReinforceCriticalSystems`
and `InitiateEvasiveManeuver` leave it unchanged, but
`DistributeShieldPower` rescales it to
`min 100 (previous * severity/10)`, which can fall below the previous
value. -/
theorem defensive_shield_bounds :
    (∀ (p p' : BodyPart) (t : Option Threat),
       0 ≤ p.protection.shieldStrength → p.protection.shieldStrength ≤ 100 →
       ActivateEmergencyShields (some p) t = DefResult.ok p' →
       p.protection.shieldStrength ≤ p'.protection.shieldStrength ∧
       p'.protection.shieldStrength ≤ 100) ∧
    (∀ (p p' : BodyPart) (t : Option Threat),
       ReinforceCriticalSystems (some p) t = DefResult.ok p' →
       p'.protection.shieldStrength = p.protection.shieldStrength) ∧
    (∀ (p p' : BodyPart) (t : Threat),
       InitiateEvasiveManeuver (some p) (some t) = DefResult.ok p' → p' = p) ∧
    (∀ (p p' : BodyPart) (t : Threat),
       DistributeShieldPower (some p) (some t) = DefResult.ok p' →
       p'.protection.shieldStrength
         = min 100 (p.protection.shieldStrength * ((t.severity : ℚ) / 10)) ∧
       p'.protection.shieldStrength ≤ 100) := by
  refine ⟨?_, ?_, ?_, ?_⟩
  · intro p p' t h0 h100 heq
    simp only [ActivateEmergencyShields] at heq
    injection heq with hbody
    subst hbody
    exact ⟨le_min h100 (by linarith), min_le_left _ _⟩
  · intro p p' t heq
    simp only [ReinforceCriticalSystems] at heq
    by_cases hc : p.isCritical = false
    · rw [if_pos hc] at heq
      exact DefResult.noConfusion heq
    · rw [if_neg hc] at heq
      injection heq with hbody
      subst hbody
      rfl
  · intro p p' t heq
    simp only [InitiateEvasiveManeuver] at heq
    injection heq with hbody
    exact hbody.symm
  · intro p p' t heq
    simp only [DistributeShieldPower] at heq
    injection heq with hbody
    subst hbody
    exact ⟨rfl, min_le_left _ _⟩

/-- C10 witness: the bounds theorem at the standard arm part (shield 75)
for the emergency-shield boost, and at the half-shield part with the
severity-5 threat for the shield redistribution. -/
theorem defensive_shield_bounds_witness :
    (armPart.protection.shieldStrength ≤
       ({ armPart with protection := { armPart.protection with
            shieldStrength := min 100 (armPart.protection.shieldStrength * (3/2)) } }
          : BodyPart).protection.shieldStrength ∧
     ({ armPart with protection := { armPart.protection with
            shieldStrength := min 100 (armPart.protection.shieldStrength * (3/2)) } }
          : BodyPart).protection.shieldStrength ≤ 100) ∧
    ({ halfShieldPart with protection := { halfShieldPart.protection with
          shieldStrength := min 100 (halfShieldPart.protection.shieldStrength *
            ((severityFiveThreat.severity : ℚ) / 10)) } }
        : BodyPart).protection.shieldStrength ≤ 100 := by
  constructor
  · exact defensive_shield_bounds.1 armPart _ none
      (by norm_num [armPart, NewBodyPart, DefaultProtection])
      (by norm_num [armPart, NewBodyPart, DefaultProtection]) rfl
  · exact (defensive_shield_bounds.2.2.2 halfShieldPart _ severityFiveThreat rfl).2
